import Mathlib

/-!
# Chat client controller (`frontend/script.js`)

A shallow embedding of the browser-side chat widget and the properties of its
`sendMessage` routine.

* JavaScript values that reach the script (the parsed response body, the module
  variable `sessionId`) are modelled by `JsVal`, with the language operations the
  script applies to them: truthiness, property access, string conversion.
* The page is modelled by `State`: the children of `#chat-history`, the text
  field, the send button, the module variable `sessionId` and the console.
* `sendMessage` is an `async` function with two `await` points.  Its synchronous
  part is `sendMessageStart`, the code that runs once the exchange has settled
  is `sendMessageFinish`, and `sendMessage` composes the two for one exchange run
  to completion.  `step` is the event loop of the page: user events and the
  settling of promises, one at a time.

Not modelled: scrolling (`chatHistory.scrollTop`), which no property below reads.
The document is taken to hold no element with id `typing-indicator` outside
`#chat-history`.
-/

namespace GstChat

/-! ## JavaScript values -/

/-- An exception value: the reason a promise was rejected with, or a `TypeError`
raised by the running code. -/
inductive JsError where
  | rejection (reason : String)
  | typeError
deriving DecidableEq, Repr

/-- A number, by the three observations the script can make of it: whether it is
non-zero (truthiness), its rendering as a string, and whether it is finite
(`JSON.parse` turns a literal such as `1e999` into `Infinity`, which
`JSON.stringify` writes as `null`). -/
structure JsNumber where
  nonZero : Bool
  text : String
  finite : Bool
deriving DecidableEq, Repr

/-- JavaScript values: `undefined` and the values `JSON.parse` produces.  The
fields of an object are its own properties in enumeration order.  Strings are
sequences of Unicode scalar values; a lone surrogate is outside the model. -/
inductive JsVal where
  | undefined
  | null
  | bool (b : Bool)
  | num (n : JsNumber)
  | str (s : String)
  | arr (items : List JsVal)
  | obj (fields : List (String × JsVal))

/-- The language operation ToBoolean, as used by `if (x)`, `!x` and `x || y`. -/
def JsVal.truthy : JsVal → Bool
  | .undefined => false
  | .null => false
  | .bool b => b
  | .num n => n.nonZero
  | .str s => s != ""
  | .arr _ => true
  | .obj _ => true

/-- Property read `v.key` for a key that no built-in prototype defines (the script
reads `answer`, `session_id` and `detail`): a `TypeError` on `undefined` and
`null`, the own property of an object, `undefined` otherwise. -/
def JsVal.getProp (v : JsVal) (key : String) : Except JsError JsVal :=
  match v with
  | .undefined => .error .typeError
  | .null => .error .typeError
  | .obj fields =>
    match fields.lookup key with
    | some x => .ok x
    | none => .ok .undefined
  | _ => .ok .undefined

mutual
/-- The language operation ToString, as applied by a template literal.  An array
joins its elements with commas; a plain object renders as `[object Object]`
unless an own `toString` property (never callable in parsed JSON) hides the
inherited method, in which case the conversion raises a `TypeError`. -/
def JsVal.toStr : JsVal → Except JsError String
  | .undefined => .ok "undefined"
  | .null => .ok "null"
  | .bool b => .ok (if b then "true" else "false")
  | .num n => .ok n.text
  | .str s => .ok s
  | .arr items => (joinItems items).map (fun parts => ",".intercalate parts)
  | .obj fields =>
    if fields.any (fun kv => kv.1 == "toString") then .error .typeError
    else .ok "[object Object]"
/-- The element renderings used by `Array.prototype.join`: `undefined` and `null`
render as the empty string. -/
def joinItems : List JsVal → Except JsError (List String)
  | [] => .ok []
  | v :: vs =>
    match v with
    | .undefined => (joinItems vs).map (fun r => "" :: r)
    | .null => (joinItems vs).map (fun r => "" :: r)
    | w =>
      match JsVal.toStr w, joinItems vs with
      | .ok s, .ok r => .ok (s :: r)
      | .error e, _ => .error e
      | _, .error e => .error e
end

/-- Conversion applied by the `textContent` setter: `undefined` and `null` give
the empty string, any other value goes through ToString. -/
def toTextContent : JsVal → Except JsError String
  | .undefined => .ok ""
  | .null => .ok ""
  | v => v.toStr

/-- Lower-case hexadecimal digit of a number below sixteen. -/
def hexDigit (n : Nat) : Char :=
  if n < 10 then Char.ofNat (0x30 + n) else Char.ofNat (0x61 + (n - 10))

/-- How `JSON.stringify` writes one character inside a string: the short escapes
for backspace, tab, line feed, form feed, carriage return, the double quote and
the backslash, a `u` escape for the other control characters, and the character
itself otherwise. -/
def quoteChar (c : Char) : List Char :=
  let n := c.toNat
  if n = 0x08 then [Char.ofNat 0x5C, 'b']
  else if n = 0x09 then [Char.ofNat 0x5C, 't']
  else if n = 0x0A then [Char.ofNat 0x5C, 'n']
  else if n = 0x0C then [Char.ofNat 0x5C, 'f']
  else if n = 0x0D then [Char.ofNat 0x5C, 'r']
  else if n = 0x22 then [Char.ofNat 0x5C, Char.ofNat 0x22]
  else if n = 0x5C then [Char.ofNat 0x5C, Char.ofNat 0x5C]
  else if n < 0x20 then
    [Char.ofNat 0x5C, 'u', '0', '0', hexDigit (n / 16), hexDigit (n % 16)]
  else [c]

/-- The JSON text of a string: its characters, escaped, between double quotes. -/
def quoteJSON (s : String) : String :=
  String.mk (Char.ofNat 0x22 :: (s.data.flatMap quoteChar ++ [Char.ofNat 0x22]))

mutual
/-- The function `JSON.stringify` on one value: no text for `undefined`, `null`
for a number that is not finite, and the fields of an object in the order of the
list, those holding `undefined` left out. -/
def jsonStringify : JsVal → Option String
  | .undefined => none
  | .null => some "null"
  | .bool b => some (if b then "true" else "false")
  | .num n => some (if n.finite then n.text else "null")
  | .str s => some (quoteJSON s)
  | .arr items => some ("[" ++ ",".intercalate (stringifyItems items) ++ "]")
  | .obj fields => some ("\x7b" ++ ",".intercalate (stringifyFields fields) ++ "\x7d")
/-- The texts of the elements of an array; `undefined` is written `null`. -/
def stringifyItems : List JsVal → List String
  | [] => []
  | v :: vs =>
    (match jsonStringify v with
     | some s => s
     | none => "null") :: stringifyItems vs
/-- The texts of the fields of an object. -/
def stringifyFields : List (String × JsVal) → List String
  | [] => []
  | (k, v) :: rest =>
    match jsonStringify v with
    | some s => (quoteJSON k ++ ":" ++ s) :: stringifyFields rest
    | none => stringifyFields rest
end

/-- White space and line terminators, the characters `String.prototype.trim`
strips. -/
def isJsWhiteSpace (c : Char) : Bool :=
  let n := c.toNat
  n == 0x09 || n == 0x0A || n == 0x0B || n == 0x0C || n == 0x0D || n == 0x20 ||
  n == 0xA0 || n == 0x1680 || (0x2000 ≤ n && n ≤ 0x200A) || n == 0x2028 ||
  n == 0x2029 || n == 0x202F || n == 0x205F || n == 0x3000 || n == 0xFEFF

/-- Strip leading and trailing white space from a list of characters. -/
def trimChars (cs : List Char) : List Char :=
  ((cs.dropWhile isJsWhiteSpace).reverse.dropWhile isJsWhiteSpace).reverse

/-- The method `String.prototype.trim`. -/
def jsTrim (s : String) : String :=
  String.mk (trimChars s.data)

/-! ## The page -/

/-- Content of a bubble: set through `textContent` or through `innerHTML`. -/
inductive BubbleContent where
  | text (s : String)
  | html (s : String)
deriving DecidableEq, Repr

/-- The inner `div` of a transcript entry. -/
structure Bubble where
  classList : List String
  content : BubbleContent
deriving DecidableEq, Repr

/-- A child of `#chat-history`: the outer `div` of a transcript entry.  The `id`
is the empty string when the element has none. -/
structure Element where
  classList : List String
  id : String
  bubble : Bubble
deriving DecidableEq, Repr

/-- The text field `#user-input`. -/
structure InputEl where
  value : String
  disabled : Bool
  focusCalls : Nat
deriving DecidableEq, Repr

/-- The button `#send-btn`. -/
structure ButtonEl where
  disabled : Bool
deriving DecidableEq, Repr

/-- Everything the script reads or writes. -/
structure State where
  chatHistory : List Element
  userInput : InputEl
  sendBtn : ButtonEl
  sessionId : JsVal
  console : List JsError

/-- The request handed to `fetch`.  `body` is the text `JSON.stringify(payload)`
returns. -/
structure Request where
  url : String
  method : String
  headers : List (String × String)
  body : Option String

/-- The element built by `appendMessage(text, sender)` once `text` is a string. -/
def messageElement (text : String) (sender : String) : Element :=
  { classList := ["message", sender], id := "",
    bubble := { classList := ["bubble"], content := .text text } }

/-- The element built by `showTyping()`. -/
def typingElement : Element :=
  { classList := ["message", "bot", "typing"], id := "typing-indicator",
    bubble := { classList := ["bubble", "typing-indicator"],
                content := .html "<span></span><span></span><span></span>" } }

/-- Whether an element is what `document.getElementById("typing-indicator")`
looks for. -/
def isTyping (e : Element) : Bool :=
  e.id == "typing-indicator"

/-- Function `appendMessage(text, sender)`.  The assignment to `textContent`
converts `text` to a string and may raise; the element is attached to the
transcript only after that. -/
def appendMessage (text : JsVal) (sender : String) (st : State) : Except JsError State :=
  match toTextContent text with
  | .error e => .error e
  | .ok s => .ok { st with chatHistory := st.chatHistory ++ [messageElement s sender] }

/-- Function `showTyping()`. -/
def showTyping (st : State) : State :=
  { st with chatHistory := st.chatHistory ++ [typingElement] }

/-- Function `removeTyping()`: removes the first element with id
`typing-indicator`, if there is one. -/
def removeTyping (st : State) : State :=
  { st with chatHistory := st.chatHistory.eraseP isTyping }

/-! ## `sendMessage` -/

/-- How one exchange settles: `fetch` rejects; or it resolves to a response with
the given `ok` flag and `response.json()` rejects; or the body parses to `data`. -/
inductive Outcome where
  | fetchRejected (reason : String)
  | jsonRejected (ok : Bool) (reason : String)
  | json (ok : Bool) (data : JsVal)

/-- Lines 42 to 64: the synchronous part of `sendMessage` up to `await fetch`.
Returns the new state and the request issued, if any. -/
def sendMessageStart (st : State) : State × Option Request :=
  let message := jsTrim st.userInput.value
  if message = "" then (st, none)
  else
    let st1 := { st with userInput := { st.userInput with value := "" } }
    match appendMessage (.str message) "user" st1 with
    | .error _ => (st1, none)
    | .ok st2 =>
      let st3 := { st2 with userInput := { st2.userInput with disabled := true } }
      let st4 := { st3 with sendBtn := { st3.sendBtn with disabled := true } }
      let st5 := showTyping st4
      let payload : List (String × JsVal) := [("message", .str message)]
      let payload :=
        if st5.sessionId.truthy then payload ++ [("session_id", st5.sessionId)]
        else payload
      (st5, some { url := "/chat", method := "POST",
                   headers := [("Content-Type", "application/json")],
                   body := jsonStringify (.obj payload) })

/-- Lines 68 to 77: the rest of the `try` block once `data` is available.
Returns the state reached and the exception raised, if any. -/
def tryBody (ok : Bool) (data : JsVal) (st : State) : State × Option JsError :=
  if ok then
    let st1 := removeTyping st
    match data.getProp "answer" with
    | .error e => (st1, some e)
    | .ok answer =>
      match appendMessage answer "bot" st1 with
      | .error e => (st1, some e)
      | .ok st2 =>
        match data.getProp "session_id" with
        | .error e => (st2, some e)
        | .ok sid =>
          if sid.truthy then ({ st2 with sessionId := sid }, none)
          else (st2, none)
  else
    let st1 := removeTyping st
    match data.getProp "detail" with
    | .error e => (st1, some e)
    | .ok detail =>
      let shown := if detail.truthy then detail else .str "Something went wrong"
      match shown.toStr with
      | .error e => (st1, some e)
      | .ok s =>
        match appendMessage (.str ("Error: " ++ s)) "system" st1 with
        | .error e => (st1, some e)
        | .ok st2 => (st2, none)

/-- Lines 79 to 82: the `catch` block. -/
def catchBlock (error : JsError) (st : State) : State :=
  let st1 := removeTyping st
  match appendMessage (.str "Error: Could not connect to server.") "system" st1 with
  | .error _ => st1
  | .ok st2 => { st2 with console := st2.console ++ [error] }

/-- Lines 83 to 87: the `finally` block. -/
def finallyBlock (st : State) : State :=
  let st1 := { st with userInput := { st.userInput with disabled := false } }
  let st2 := { st1 with sendBtn := { st1.sendBtn with disabled := false } }
  { st2 with userInput := { st2.userInput with focusCalls := st2.userInput.focusCalls + 1 } }

/-- Resumption after `await response.json()` has delivered `data`. -/
def afterJson (ok : Bool) (data : JsVal) (st : State) : State :=
  match tryBody ok data st with
  | (st1, none) => finallyBlock st1
  | (st1, some e) => finallyBlock (catchBlock e st1)

/-- Resumption after an awaited promise was rejected with `reason`. -/
def afterRejection (reason : String) (st : State) : State :=
  finallyBlock (catchBlock (.rejection reason) st)

/-- Lines 66 to 87: everything `sendMessage` does after the exchange settled. -/
def sendMessageFinish (o : Outcome) (st : State) : State :=
  match o with
  | .fetchRejected reason => afterRejection reason st
  | .jsonRejected _ reason => afterRejection reason st
  | .json ok data => afterJson ok data st

/-- One call of `sendMessage` run to completion with outcome `o`. -/
def sendMessage (st : State) (o : Outcome) : State × Option Request :=
  match sendMessageStart st with
  | (st1, none) => (st1, none)
  | (st1, some r) => (sendMessageFinish o st1, some r)

/-- No child of the transcript is a typing placeholder. -/
def noTyping (l : List Element) : Prop :=
  ∀ e ∈ l, isTyping e = false

instance (l : List Element) : Decidable (noTyping l) :=
  inferInstanceAs (Decidable (∀ e ∈ l, isTyping e = false))

/-! ## The event loop -/

/-- A suspended call of `sendMessage`: waiting at `await fetch(...)`, or waiting
at `await response.json()` for a response whose `ok` flag is known. -/
inductive Pending where
  | fetch
  | json (ok : Bool)
deriving DecidableEq, Repr

/-- The page while it runs: the state, the suspended calls of `sendMessage`, and
the requests handed to `fetch` so far. -/
structure Page where
  st : State
  pending : List Pending
  sent : List Request

/-- What can happen next.  `edit` is the user changing the text of the field,
`click` and `keypress` are the two events the script listens to, and the other
four settle the promise the `i`-th suspended call is waiting for. -/
inductive Event where
  | edit (text : String)
  | click
  | keypress (key : String)
  | fetchResolved (i : Nat) (ok : Bool)
  | fetchRejected (i : Nat) (reason : String)
  | jsonResolved (i : Nat) (data : JsVal)
  | jsonRejected (i : Nat) (reason : String)

/-- A listener calls `sendMessage()`: the synchronous part runs, and the call is
suspended at `await fetch` if it got that far. -/
def invoke (p : Page) : Page :=
  match sendMessageStart p.st with
  | (st1, none) => { p with st := st1 }
  | (st1, some r) => { st := st1, pending := p.pending ++ [Pending.fetch], sent := p.sent ++ [r] }

/-- One turn of the event loop.  The browser delivers no user event to a disabled
control; lines 90 to 96 register the listeners for `click` on the button and for
`keypress` on the field. -/
def step (p : Page) : Event → Page
  | .edit text =>
    if p.st.userInput.disabled then p
    else { p with st := { p.st with userInput := { p.st.userInput with value := text } } }
  | .click =>
    if p.st.sendBtn.disabled then p else invoke p
  | .keypress key =>
    if p.st.userInput.disabled then p
    else if key = "Enter" then invoke p else p
  | .fetchResolved i ok =>
    match p.pending.get? i with
    | some Pending.fetch => { p with pending := p.pending.set i (Pending.json ok) }
    | _ => p
  | .fetchRejected i reason =>
    match p.pending.get? i with
    | some Pending.fetch =>
      { p with st := afterRejection reason p.st, pending := p.pending.eraseIdx i }
    | _ => p
  | .jsonResolved i data =>
    match p.pending.get? i with
    | some (Pending.json ok) =>
      { p with st := afterJson ok data p.st, pending := p.pending.eraseIdx i }
    | _ => p
  | .jsonRejected i reason =>
    match p.pending.get? i with
    | some (Pending.json _) =>
      { p with st := afterRejection reason p.st, pending := p.pending.eraseIdx i }
    | _ => p

/-- The page after a sequence of events. -/
def run (p : Page) (events : List Event) : Page :=
  events.foldl step p

/-- The state when the script has loaded: `sessionId` is `null` (line 5), nothing
is disabled; the transcript and the text of the field come from the document. -/
def initialState (history : List Element) (value : String) : State :=
  { chatHistory := history,
    userInput := { value := value, disabled := false, focusCalls := 0 },
    sendBtn := { disabled := false },
    sessionId := .null,
    console := [] }

/-- The page when the script has loaded. -/
def initialPage (history : List Element) (value : String) : Page :=
  { st := initialState history value, pending := [], sent := [] }

/-! ## Sequences of submissions -/

/-- The user enters `text` and triggers `sendMessage`; the exchange settles with
outcome `o`. -/
def submit (st : State) (text : String) (o : Outcome) : State × Option Request :=
  sendMessage { st with userInput := { st.userInput with value := text } } o

/-- The state after a sequence of submissions. -/
def afterSubmissions (st : State) : List (String × Outcome) → State
  | [] => st
  | s :: rest => afterSubmissions (submit st s.1 s.2).1 rest

/-- The session token a response supplies, read as the specification words it: a
success response whose body has a `session_id`. -/
def specSuppliedToken : Outcome → Option JsVal
  | .json true (.obj fields) => fields.lookup "session_id"
  | _ => none

/-- The token supplied by the most recent of the `earlier` outcomes that supplied
one, in the wording of the specification. -/
def specHeldToken (earlier : List Outcome) : Option JsVal :=
  earlier.reverse.findSome? specSuppliedToken

/-- The session token a response supplies when only truthy values count (for a
string: a non-empty one). -/
def suppliedToken : Outcome → Option JsVal
  | .json true (.obj fields) => (fields.lookup "session_id").filter JsVal.truthy
  | _ => none

/-- The token supplied by the most recent of the `earlier` outcomes that supplied
a truthy one. -/
def heldToken (earlier : List Outcome) : Option JsVal :=
  earlier.reverse.findSome? suppliedToken

/-- The answer of a success response can be shown as text.  This holds for every
string answer; it fails only for an object that hides `toString`. -/
def Outcome.answerRenders : Outcome → Bool
  | .json true (.obj fields) =>
    match fields.lookup "answer" with
    | some a => (toTextContent a).toBool
    | none => true
  | _ => true

/-! ## Derived descriptions and sample inputs -/

/-- The state in which `sendMessage` is suspended at `await fetch`. -/
def sendingState (st : State) (message : String) : State :=
  { st with
    chatHistory := st.chatHistory ++ [messageElement message "user", typingElement],
    userInput := { st.userInput with value := "", disabled := true },
    sendBtn := { disabled := true } }

/-- The payload `sendMessage` builds for `message` when `sessionId` holds `sid`. -/
def payloadFor (message : String) (sid : JsVal) : JsVal :=
  .obj (if sid.truthy then [("message", .str message), ("session_id", sid)]
        else [("message", .str message)])

/-- A freshly loaded page with an empty transcript and `Hello` typed in. -/
def helloState : State := initialState [] "Hello"

/-- A freshly loaded page with an empty transcript and `X` typed in. -/
def xState : State := initialState [] "X"

/-- Success response `{answer: "Hi there", session_id: "abc"}`. -/
def hiThere : Outcome :=
  .json true (.obj [("answer", .str "Hi there"), ("session_id", .str "abc")])

/-- Success response `{answer: "Hi again", session_id: ""}`. -/
def hiAgainEmptyToken : Outcome :=
  .json true (.obj [("answer", .str "Hi again"), ("session_id", .str "")])

/-- Response with status 500 and body `{detail: "overloaded"}`. -/
def overloaded : Outcome :=
  .json false (.obj [("detail", .str "overloaded")])

/-- Response with status 500 and body `{detail: ""}`. -/
def emptyDetail : Outcome :=
  .json false (.obj [("detail", .str "")])

/-- The control invariant of the event loop: at most one call of `sendMessage` is
suspended, the two controls are disabled exactly while one is, the field is empty
while one is, and `sessionId` is `null` or truthy. -/
structure CtlInv (p : Page) : Prop where
  atMostOne : p.pending.length ≤ 1
  inputDisabled : p.st.userInput.disabled = !p.pending.isEmpty
  btnDisabled : p.st.sendBtn.disabled = !p.pending.isEmpty
  cleared : p.pending ≠ [] → p.st.userInput.value = ""
  token : p.st.sessionId = .null ∨ p.st.sessionId.truthy = true

/-- The placeholder invariant of the event loop: no typing placeholder while no
call is suspended, and exactly one, the last child of the transcript, while one
is. -/
def TypingInv (p : Page) : Prop :=
  (p.pending = [] → noTyping p.st.chatHistory) ∧
  (p.pending ≠ [] → ∃ pre, noTyping pre ∧ p.st.chatHistory = pre ++ [typingElement])

/-- The page reached from a freshly loaded one by a sequence of events. -/
def reached (history : List Element) (value : String) (events : List Event) : Page :=
  run (initialPage history value) events

/-- The value the script puts into the field `session_id` of the payload when
`sessionId` holds `sid`: the value itself when it is truthy, no field otherwise. -/
def tokenSent (sid : JsVal) : Option JsVal :=
  if sid.truthy then some sid else none

/-- Events of a first exchange that stores the token `abc`, followed by the user
typing `more`. -/
def helloThenMore : List Event :=
  [.edit "Hello", .click, .fetchResolved 0 true,
   .jsonResolved 0 (.obj [("answer", .str "Hi there"), ("session_id", .str "abc")]),
   .edit "more"]

/-- Events of a first exchange that stores the token `abc`, followed by the user
typing a text with a tab, a backslash, a double quote and the control character
with code 1. -/
def helloThenQuoted : List Event :=
  [.edit "Hello", .click, .fetchResolved 0 true,
   .jsonResolved 0 (.obj [("answer", .str "Hi there"), ("session_id", .str "abc")]),
   .edit "a\tb\\c\"d\x01e"]

/-- The number `Infinity`, which `JSON.parse` returns for a literal such as
`1e999`. -/
def infinity : JsNumber :=
  { nonZero := true, text := "Infinity", finite := false }

/-- Events of a first exchange whose response carries `session_id: 1e999`,
followed by the user typing `more`. -/
def infinityThenMore : List Event :=
  [.edit "Hello", .click, .fetchResolved 0 true,
   .jsonResolved 0 (.obj [("answer", .str "Hi there"), ("session_id", .num infinity)]),
   .edit "more"]

/-- Events that leave an exchange waiting for its response body. -/
def helloPending : List Event :=
  [.edit "Hello", .keypress "Enter", .fetchResolved 0 true]

/-- Two submissions: the first response supplies `abc`, the second the empty
string. -/
def twoSubmissions : List (String × Outcome) :=
  [("Hello", hiThere), ("again", hiAgainEmptyToken)]

/-- Success response whose `answer` is the object `{toString: 1}`, which cannot
be shown as text, and whose `session_id` is `xyz`. -/
def unshownAnswer : Outcome :=
  .json true (.obj [("answer", .obj [("toString",
      .num { nonZero := true, text := "1", finite := true })]),
    ("session_id", .str "xyz")])

/-- Response with status 500 and the body `null`. -/
def nullBody : Outcome :=
  .json false .null

/-! ## Trimming -/

theorem trimChars_eq_nil_iff (cs : List Char) :
    trimChars cs = [] ↔ ∀ c ∈ cs, isJsWhiteSpace c = true := by
  unfold trimChars
  constructor
  · intro h
    have h1 : (cs.dropWhile isJsWhiteSpace).reverse.dropWhile isJsWhiteSpace = [] := by
      simpa using h
    by_cases hd : cs.dropWhile isJsWhiteSpace = []
    · simpa [List.dropWhile_eq_nil_iff] using hd
    · exfalso
      have hne := List.head_dropWhile_not isJsWhiteSpace cs hd
      rw [List.dropWhile_eq_nil_iff] at h1
      have hmem : (cs.dropWhile isJsWhiteSpace).head hd ∈ (cs.dropWhile isJsWhiteSpace).reverse := by
        simp
      have := h1 _ hmem
      simp [this] at hne
  · intro h
    have hd : cs.dropWhile isJsWhiteSpace = [] := by
      simpa [List.dropWhile_eq_nil_iff] using h
    simp [hd]

theorem jsTrim_eq_empty_iff (s : String) :
    jsTrim s = "" ↔ ∀ c ∈ s.data, isJsWhiteSpace c = true := by
  rw [← trimChars_eq_nil_iff]
  unfold jsTrim
  constructor
  · intro h
    have := congrArg String.data h
    simpa using this
  · intro h
    rw [h]

/-! ## The synchronous part -/

theorem sendMessageStart_of_empty (st : State) (h : jsTrim st.userInput.value = "") :
    sendMessageStart st = (st, none) := by
  simp [sendMessageStart, h]

theorem sendMessageStart_of_nonempty (st : State) (h : jsTrim st.userInput.value ≠ "") :
    sendMessageStart st =
      (sendingState st (jsTrim st.userInput.value),
       some { url := "/chat", method := "POST",
              headers := [("Content-Type", "application/json")],
              body := jsonStringify (payloadFor (jsTrim st.userInput.value) st.sessionId) }) := by
  simp only [sendMessageStart, h, if_false, appendMessage, toTextContent, JsVal.toStr,
    showTyping, sendingState, payloadFor]
  cases hs : st.sessionId.truthy <;> simp [hs]

/-! ## The code after the exchange settled -/

theorem appendMessage_str (s sender : String) (st : State) :
    appendMessage (.str s) sender st =
      .ok { st with chatHistory := st.chatHistory ++ [messageElement s sender] } := by
  simp [appendMessage, toTextContent, JsVal.toStr]

theorem tryBody_cases (ok : Bool) (data : JsVal) (st : State) :
    (∃ e, tryBody ok data st = (removeTyping st, some e)) ∨
    (∃ text sender sid, (sender = "bot" ∨ sender = "system") ∧
      (sid = st.sessionId ∨ sid.truthy = true) ∧
      tryBody ok data st =
        ({ removeTyping st with
            chatHistory := (removeTyping st).chatHistory ++ [messageElement text sender],
            sessionId := sid }, none)) := by
  cases ok
  · cases hd : data.getProp "detail" with
    | error e => left; exact ⟨e, by simp [tryBody, hd]⟩
    | ok detail =>
      cases hs : (if detail.truthy then detail else JsVal.str "Something went wrong").toStr with
      | error e => left; exact ⟨e, by simp [tryBody, hd, hs]⟩
      | ok s =>
        right
        refine ⟨"Error: " ++ s, "system", st.sessionId, Or.inr rfl, Or.inl rfl, ?_⟩
        simp [tryBody, hd, hs, appendMessage_str, removeTyping]
  · cases ha : data.getProp "answer" with
    | error e => left; exact ⟨e, by simp [tryBody, ha]⟩
    | ok answer =>
      cases ht : toTextContent answer with
      | error e => left; exact ⟨e, by simp [tryBody, ha, appendMessage, ht]⟩
      | ok s =>
        cases hsid : data.getProp "session_id" with
        | error e =>
          exfalso
          cases data <;> simp [JsVal.getProp] at ha hsid
          all_goals (split at hsid <;> simp at hsid)
        | ok sid =>
          right
          cases htr : sid.truthy
          · refine ⟨s, "bot", st.sessionId, Or.inl rfl, Or.inl rfl, ?_⟩
            simp [tryBody, ha, appendMessage, ht, hsid, htr, removeTyping]
          · refine ⟨s, "bot", sid, Or.inl rfl, Or.inr htr, ?_⟩
            simp [tryBody, ha, appendMessage, ht, hsid, htr, removeTyping]

theorem eraseP_noTyping (l : List Element) (h : noTyping l) : l.eraseP isTyping = l := by
  apply List.eraseP_of_forall_not
  intro e he
  simp [h e he]

theorem eraseP_typing_last (pre : List Element) (h : noTyping pre) :
    (pre ++ [typingElement]).eraseP isTyping = pre := by
  rw [List.eraseP_append_right]
  · simp [List.eraseP, isTyping, typingElement]
  · intro e he
    simp [h e he]

theorem noTyping_append_message (pre : List Element) (text sender : String)
    (h : noTyping pre) : noTyping (pre ++ [messageElement text sender]) := by
  intro e he
  rcases List.mem_append.mp he with h1 | h1
  · exact h e h1
  · simp at h1
    subst h1
    rfl

theorem catchBlock_eq (error : JsError) (st : State) :
    catchBlock error st =
      { st with
        chatHistory := st.chatHistory.eraseP isTyping ++
          [messageElement "Error: Could not connect to server." "system"],
        console := st.console ++ [error] } := by
  simp [catchBlock, appendMessage_str, removeTyping]

theorem afterRejection_eq (reason : String) (st : State) :
    afterRejection reason st =
      { chatHistory := st.chatHistory.eraseP isTyping ++
          [messageElement "Error: Could not connect to server." "system"],
        userInput := { value := st.userInput.value, disabled := false,
                       focusCalls := st.userInput.focusCalls + 1 },
        sendBtn := { disabled := false },
        sessionId := st.sessionId,
        console := st.console ++ [JsError.rejection reason] } := by
  simp [afterRejection, catchBlock_eq, finallyBlock]

/-- What every settled exchange leaves behind, whatever the outcome: one `bot` or
`system` message in place of the first typing placeholder (a second placeholder
can go as well when the `try` block raises after its own removal), the controls
enabled, the value of the field untouched, and a token that is the old one or a
truthy new one. -/
theorem sendMessageFinish_shape (o : Outcome) (st : State) :
    ∃ text sender sid console, (sender = "bot" ∨ sender = "system") ∧
      (sid = st.sessionId ∨ sid.truthy = true) ∧
      (sendMessageFinish o st =
        { chatHistory := st.chatHistory.eraseP isTyping ++ [messageElement text sender],
          userInput := { value := st.userInput.value, disabled := false,
                         focusCalls := st.userInput.focusCalls + 1 },
          sendBtn := { disabled := false },
          sessionId := sid,
          console := console } ∨
       sendMessageFinish o st =
        { chatHistory := (st.chatHistory.eraseP isTyping).eraseP isTyping ++
            [messageElement text sender],
          userInput := { value := st.userInput.value, disabled := false,
                         focusCalls := st.userInput.focusCalls + 1 },
          sendBtn := { disabled := false },
          sessionId := sid,
          console := console }) := by
  cases o with
  | fetchRejected reason =>
    exact ⟨"Error: Could not connect to server.", "system", st.sessionId,
      st.console ++ [JsError.rejection reason], Or.inr rfl, Or.inl rfl,
      Or.inl (by simp [sendMessageFinish, afterRejection_eq])⟩
  | jsonRejected ok reason =>
    exact ⟨"Error: Could not connect to server.", "system", st.sessionId,
      st.console ++ [JsError.rejection reason], Or.inr rfl, Or.inl rfl,
      Or.inl (by simp [sendMessageFinish, afterRejection_eq])⟩
  | json ok data =>
    rcases tryBody_cases ok data st with ⟨e, he⟩ | ⟨text, sender, sid, hs, hsid, he⟩
    · exact ⟨"Error: Could not connect to server.", "system", st.sessionId,
        st.console ++ [e], Or.inr rfl, Or.inl rfl,
        Or.inr (by simp [sendMessageFinish, afterJson, he, catchBlock_eq, finallyBlock,
          removeTyping])⟩
    · exact ⟨text, sender, sid, st.console, hs, hsid,
        Or.inl (by simp [sendMessageFinish, afterJson, he, finallyBlock, removeTyping])⟩

theorem sendMessageFinish_pending (o : Outcome) (st : State) (pre : List Element)
    (hpre : noTyping pre) (hst : st.chatHistory = pre ++ [typingElement]) :
    ∃ text sender sid console, (sender = "bot" ∨ sender = "system") ∧
      (sid = st.sessionId ∨ sid.truthy = true) ∧
      sendMessageFinish o st =
        { chatHistory := pre ++ [messageElement text sender],
          userInput := { value := st.userInput.value, disabled := false,
                         focusCalls := st.userInput.focusCalls + 1 },
          sendBtn := { disabled := false },
          sessionId := sid,
          console := console } := by
  obtain ⟨text, sender, sid, console, hs, hsid, h | h⟩ := sendMessageFinish_shape o st
  · refine ⟨text, sender, sid, console, hs, hsid, ?_⟩
    rw [h, hst, eraseP_typing_last pre hpre]
  · refine ⟨text, sender, sid, console, hs, hsid, ?_⟩
    rw [h, hst, eraseP_typing_last pre hpre, eraseP_noTyping pre hpre]

/-! ## Properties of one exchange -/

/-- C1: from a transcript without typing placeholder and a field whose trimmed
text `t` is not empty, `sendMessage` leaves, for every outcome, the earlier
transcript followed by exactly two messages: the `user` message with text `t`
(a `div` with classes `message` and `user` around a bubble with that text), then
one message whose sender class is `bot` or `system`.  The user message is in
place, followed by the typing placeholder, as soon as the synchronous part has
run. -/
theorem sendMessage_appends_two (st : State) (o : Outcome)
    (hno : noTyping st.chatHistory) (hne : jsTrim st.userInput.value ≠ "") :
    (sendMessageStart st).1.chatHistory =
        st.chatHistory ++
          [Element.mk ["message", "user"] ""
            (Bubble.mk ["bubble"] (BubbleContent.text (jsTrim st.userInput.value))),
           Element.mk ["message", "bot", "typing"] "typing-indicator"
            (Bubble.mk ["bubble", "typing-indicator"]
              (BubbleContent.html "<span></span><span></span><span></span>"))] ∧
    ∃ text sender, (sender = "bot" ∨ sender = "system") ∧
      (sendMessage st o).1.chatHistory =
        st.chatHistory ++
          [Element.mk ["message", "user"] ""
            (Bubble.mk ["bubble"] (BubbleContent.text (jsTrim st.userInput.value))),
           Element.mk ["message", sender] "" (Bubble.mk ["bubble"] (BubbleContent.text text))] := by
  refine ⟨by rw [sendMessageStart_of_nonempty st hne]; rfl, ?_⟩
  have hpre : noTyping (st.chatHistory ++ [messageElement (jsTrim st.userInput.value) "user"]) :=
    noTyping_append_message _ _ _ hno
  obtain ⟨text, sender, sid, console, hs, _, h⟩ :=
    sendMessageFinish_pending o (sendingState st (jsTrim st.userInput.value)) _ hpre
      (by simp [sendingState])
  refine ⟨text, sender, hs, ?_⟩
  simp [sendMessage, sendMessageStart_of_nonempty st hne, h, messageElement]

/-- C1 at `Hello` with the success response `hiThere`: the transcript ends up as
the `user` message `Hello` and the `bot` message `Hi there`. -/
theorem sendMessage_appends_two_witness :
    ((sendMessageStart helloState).1.chatHistory =
        helloState.chatHistory ++
          [Element.mk ["message", "user"] ""
            (Bubble.mk ["bubble"] (BubbleContent.text (jsTrim helloState.userInput.value))),
           Element.mk ["message", "bot", "typing"] "typing-indicator"
            (Bubble.mk ["bubble", "typing-indicator"]
              (BubbleContent.html "<span></span><span></span><span></span>"))] ∧
      ∃ text sender, (sender = "bot" ∨ sender = "system") ∧
        (sendMessage helloState hiThere).1.chatHistory =
          helloState.chatHistory ++
            [Element.mk ["message", "user"] ""
              (Bubble.mk ["bubble"] (BubbleContent.text (jsTrim helloState.userInput.value))),
             Element.mk ["message", sender] ""
              (Bubble.mk ["bubble"] (BubbleContent.text text))]) ∧
    (sendMessage helloState hiThere).1.chatHistory =
      [Element.mk ["message", "user"] "" (Bubble.mk ["bubble"] (BubbleContent.text "Hello")),
       Element.mk ["message", "bot"] "" (Bubble.mk ["bubble"] (BubbleContent.text "Hi there"))] :=
  ⟨sendMessage_appends_two helloState hiThere (by decide) (by decide), by decide⟩

theorem afterJson_success (st : State) (fields : List (String × JsVal)) (a : String)
    (ha : fields.lookup "answer" = some (.str a)) :
    afterJson true (.obj fields) st =
      { chatHistory := st.chatHistory.eraseP isTyping ++ [messageElement a "bot"],
        userInput := { value := st.userInput.value, disabled := false,
                       focusCalls := st.userInput.focusCalls + 1 },
        sendBtn := { disabled := false },
        sessionId :=
          match fields.lookup "session_id" with
          | some sid => if sid.truthy then sid else st.sessionId
          | none => st.sessionId,
        console := st.console } := by
  cases hsid : fields.lookup "session_id" with
  | none =>
    simp [afterJson, tryBody, JsVal.getProp, ha, hsid, appendMessage_str, removeTyping,
      finallyBlock, JsVal.truthy]
  | some sid =>
    cases htr : sid.truthy <;>
      simp [afterJson, tryBody, JsVal.getProp, ha, hsid, htr, appendMessage_str, removeTyping,
        finallyBlock]

theorem afterJson_failure (st : State) (fields : List (String × JsVal)) :
    afterJson false (.obj fields) st =
      match fields.lookup "detail" with
      | some (.str d) =>
        { chatHistory := st.chatHistory.eraseP isTyping ++
            [messageElement ("Error: " ++ (if d = "" then "Something went wrong" else d))
              "system"],
          userInput := { value := st.userInput.value, disabled := false,
                         focusCalls := st.userInput.focusCalls + 1 },
          sendBtn := { disabled := false },
          sessionId := st.sessionId,
          console := st.console }
      | none =>
        { chatHistory := st.chatHistory.eraseP isTyping ++
            [messageElement "Error: Something went wrong" "system"],
          userInput := { value := st.userInput.value, disabled := false,
                         focusCalls := st.userInput.focusCalls + 1 },
          sendBtn := { disabled := false },
          sessionId := st.sessionId,
          console := st.console }
      | some _ => afterJson false (.obj fields) st := by
  cases hd : fields.lookup "detail" with
  | none =>
    simp [afterJson, tryBody, JsVal.getProp, hd, JsVal.truthy, JsVal.toStr, appendMessage_str,
      removeTyping, finallyBlock]
  | some v =>
    cases v <;> simp
    rename_i d
    by_cases hde : d = ""
    · simp [afterJson, tryBody, JsVal.getProp, hd, JsVal.truthy, JsVal.toStr,
        appendMessage_str, removeTyping, finallyBlock, hde]
    · simp [afterJson, tryBody, JsVal.getProp, hd, JsVal.truthy, JsVal.toStr,
        appendMessage_str, removeTyping, finallyBlock, hde]

theorem sendMessage_of_nonempty (st : State) (o : Outcome)
    (hne : jsTrim st.userInput.value ≠ "") :
    sendMessage st o =
      (sendMessageFinish o (sendingState st (jsTrim st.userInput.value)),
       some { url := "/chat", method := "POST",
              headers := [("Content-Type", "application/json")],
              body := jsonStringify (payloadFor (jsTrim st.userInput.value) st.sessionId) }) := by
  simp [sendMessage, sendMessageStart_of_nonempty st hne]

theorem sendingState_erase (st : State) (message : String) (hno : noTyping st.chatHistory) :
    (sendingState st message).chatHistory.eraseP isTyping =
      st.chatHistory ++ [messageElement message "user"] := by
  have h : (sendingState st message).chatHistory =
      (st.chatHistory ++ [messageElement message "user"]) ++ [typingElement] := by
    simp [sendingState]
  rw [h, eraseP_typing_last _ (noTyping_append_message _ _ _ hno)]

/-- C2 (amended): for a non-empty trimmed input `t` and a success response whose
body has the string answer `a`, `sendMessage` appends the `user` message `t` and
the `bot` message (classes `message` and `bot`) with text exactly `a`; afterwards
the stored token is the `session_id` of the response when that is a non-empty
string, and the previous token when the response carries no `session_id` or the
empty string. -/
theorem sendMessage_success (st : State) (fields : List (String × JsVal)) (a : String)
    (hno : noTyping st.chatHistory) (hne : jsTrim st.userInput.value ≠ "")
    (ha : fields.lookup "answer" = some (.str a)) :
    (sendMessage st (.json true (.obj fields))).1.chatHistory =
        st.chatHistory ++
          [Element.mk ["message", "user"] ""
            (Bubble.mk ["bubble"] (BubbleContent.text (jsTrim st.userInput.value))),
           Element.mk ["message", "bot"] "" (Bubble.mk ["bubble"] (BubbleContent.text a))] ∧
    (∀ tok, fields.lookup "session_id" = some (.str tok) → tok ≠ "" →
        (sendMessage st (.json true (.obj fields))).1.sessionId = .str tok) ∧
    (fields.lookup "session_id" = none ∨ fields.lookup "session_id" = some (.str "") →
        (sendMessage st (.json true (.obj fields))).1.sessionId = st.sessionId) := by
  rw [sendMessage_of_nonempty st _ hne]
  simp only [sendMessageFinish, afterJson_success _ fields a ha, sendingState_erase st _ hno]
  refine ⟨by simp [messageElement], ?_, ?_⟩
  · intro tok htok hne2
    simp [htok, JsVal.truthy, hne2]
  · rintro (h | h)
    · simp [h, sendingState]
    · simp [h, JsVal.truthy, sendingState]

/-- C2 at `Hello` with the response `hiThere`, which carries the answer
`Hi there` and the `session_id` `abc`. -/
theorem sendMessage_success_witness :
    (sendMessage helloState hiThere).1.chatHistory =
      [Element.mk ["message", "user"] "" (Bubble.mk ["bubble"] (BubbleContent.text "Hello")),
       Element.mk ["message", "bot"] ""
        (Bubble.mk ["bubble"] (BubbleContent.text "Hi there"))] ∧
    (sendMessage helloState hiThere).1.sessionId = .str "abc" :=
  ⟨(sendMessage_success helloState
      [("answer", .str "Hi there"), ("session_id", .str "abc")] "Hi there"
      (by decide) (by decide) rfl).1,
   (sendMessage_success helloState
      [("answer", .str "Hi there"), ("session_id", .str "abc")] "Hi there"
      (by decide) (by decide) rfl).2.1 "abc" rfl (by decide)⟩

/-- C2 fails as stated: after `abc` was stored, a success response carrying the
`session_id` `""` does not overwrite the token; `abc` stays. -/
theorem empty_token_is_not_stored :
    (sendMessage helloState hiThere).1.sessionId = .str "abc" ∧
    (submit (sendMessage helloState hiThere).1 "again" hiAgainEmptyToken).1.chatHistory =
      [Element.mk ["message", "user"] "" (Bubble.mk ["bubble"] (BubbleContent.text "Hello")),
       Element.mk ["message", "bot"] "" (Bubble.mk ["bubble"] (BubbleContent.text "Hi there")),
       Element.mk ["message", "user"] "" (Bubble.mk ["bubble"] (BubbleContent.text "again")),
       Element.mk ["message", "bot"] ""
        (Bubble.mk ["bubble"] (BubbleContent.text "Hi again"))] ∧
    (submit (sendMessage helloState hiThere).1 "again" hiAgainEmptyToken).1.sessionId =
      .str "abc" ∧
    (submit (sendMessage helloState hiThere).1 "again" hiAgainEmptyToken).1.sessionId ≠
      .str "" := by
  refine ⟨rfl, by decide, rfl, ?_⟩
  intro h
  have : (JsVal.str "abc") = JsVal.str "" := h
  simp at this

theorem afterJson_failure_generic (st : State) (data : JsVal)
    (h1 : data ≠ .null) (h2 : data ≠ .undefined)
    (hd : ∀ fields, data = .obj fields →
      fields.lookup "detail" = none ∨ fields.lookup "detail" = some (.str "")) :
    afterJson false data st =
      { chatHistory := st.chatHistory.eraseP isTyping ++
          [messageElement "Error: Something went wrong" "system"],
        userInput := { value := st.userInput.value, disabled := false,
                       focusCalls := st.userInput.focusCalls + 1 },
        sendBtn := { disabled := false },
        sessionId := st.sessionId,
        console := st.console } := by
  cases data with
  | obj fields =>
    rw [afterJson_failure]
    rcases hd fields rfl with h | h <;> simp [h]
  | undefined => exact absurd rfl h2
  | null => exact absurd rfl h1
  | bool b =>
    simp [afterJson, tryBody, JsVal.getProp, JsVal.truthy, JsVal.toStr, appendMessage_str,
      removeTyping, finallyBlock]
  | num n =>
    simp [afterJson, tryBody, JsVal.getProp, JsVal.truthy, JsVal.toStr, appendMessage_str,
      removeTyping, finallyBlock]
  | str s =>
    simp [afterJson, tryBody, JsVal.getProp, JsVal.truthy, JsVal.toStr, appendMessage_str,
      removeTyping, finallyBlock]
  | arr items =>
    simp [afterJson, tryBody, JsVal.getProp, JsVal.truthy, JsVal.toStr, appendMessage_str,
      removeTyping, finallyBlock]

theorem afterJson_failure_null (st : State) :
    afterJson false .null st =
      { chatHistory := (st.chatHistory.eraseP isTyping).eraseP isTyping ++
          [messageElement "Error: Could not connect to server." "system"],
        userInput := { value := st.userInput.value, disabled := false,
                       focusCalls := st.userInput.focusCalls + 1 },
        sendBtn := { disabled := false },
        sessionId := st.sessionId,
        console := st.console ++ [JsError.typeError] } := by
  simp [afterJson, tryBody, JsVal.getProp, catchBlock_eq, removeTyping, finallyBlock]

/-- C3 (amended): for a non-empty trimmed input `t` and a response that is not ok,
`sendMessage` appends the `user` message `t` and one `system` message (classes
`message` and `system`).  Its text is `Error: ` followed by the detail when the
body is an object whose `detail` is a non-empty string; it is
`Error: Something went wrong` when the body is any JSON value other than `null`
whose `detail` is absent or the empty string; and for the body `null` it is
`Error: Could not connect to server.` -/
theorem sendMessage_server_error (st : State) (data : JsVal)
    (hno : noTyping st.chatHistory) (hne : jsTrim st.userInput.value ≠ "") :
    (∀ fields d, data = .obj fields → fields.lookup "detail" = some (.str d) → d ≠ "" →
        (sendMessage st (.json false data)).1.chatHistory =
          st.chatHistory ++
            [Element.mk ["message", "user"] ""
              (Bubble.mk ["bubble"] (BubbleContent.text (jsTrim st.userInput.value))),
             Element.mk ["message", "system"] ""
              (Bubble.mk ["bubble"] (BubbleContent.text ("Error: " ++ d)))]) ∧
    (data ≠ .null → data ≠ .undefined →
      (∀ fields, data = .obj fields →
        fields.lookup "detail" = none ∨ fields.lookup "detail" = some (.str "")) →
        (sendMessage st (.json false data)).1.chatHistory =
          st.chatHistory ++
            [Element.mk ["message", "user"] ""
              (Bubble.mk ["bubble"] (BubbleContent.text (jsTrim st.userInput.value))),
             Element.mk ["message", "system"] ""
              (Bubble.mk ["bubble"] (BubbleContent.text "Error: Something went wrong"))]) ∧
    (data = .null →
        (sendMessage st (.json false data)).1.chatHistory =
          st.chatHistory ++
            [Element.mk ["message", "user"] ""
              (Bubble.mk ["bubble"] (BubbleContent.text (jsTrim st.userInput.value))),
             Element.mk ["message", "system"] ""
              (Bubble.mk ["bubble"]
                (BubbleContent.text "Error: Could not connect to server."))]) := by
  rw [sendMessage_of_nonempty st _ hne]
  simp only [sendMessageFinish]
  have hpre : noTyping (st.chatHistory ++ [messageElement (jsTrim st.userInput.value) "user"]) :=
    noTyping_append_message _ _ _ hno
  refine ⟨?_, ?_, ?_⟩
  · intro fields d hdata hd hde
    subst hdata
    rw [afterJson_failure]
    simp [hd, hde, sendingState_erase st _ hno, messageElement]
  · intro h1 h2 hd
    rw [afterJson_failure_generic _ data h1 h2 hd]
    simp [sendingState_erase st _ hno, messageElement]
  · intro hnull
    subst hnull
    rw [afterJson_failure_null, sendingState_erase st _ hno, eraseP_noTyping _ hpre]
    simp [messageElement]

/-- C3 at `X` with status 500 and body `overloaded`, whose `detail` is the string
`overloaded`. -/
theorem sendMessage_server_error_witness :
    (sendMessage xState overloaded).1.chatHistory =
      [Element.mk ["message", "user"] "" (Bubble.mk ["bubble"] (BubbleContent.text "X")),
       Element.mk ["message", "system"] ""
        (Bubble.mk ["bubble"] (BubbleContent.text "Error: overloaded"))] :=
  (sendMessage_server_error xState (.obj [("detail", .str "overloaded")])
    (by decide) (by decide)).1 [("detail", .str "overloaded")] "overloaded" rfl rfl (by decide)

/-- C3 fails as stated: with the body `emptyDetail` the detail is present (the
empty string), yet the message shown is the generic one and not `Error: `
followed by the detail; and with the JSON body `null` the message shown is
neither, it is the one of the `catch` block. -/
theorem empty_detail_shows_generic_text :
    (sendMessage xState emptyDetail).1.chatHistory =
      [Element.mk ["message", "user"] "" (Bubble.mk ["bubble"] (BubbleContent.text "X")),
       Element.mk ["message", "system"] ""
        (Bubble.mk ["bubble"] (BubbleContent.text "Error: Something went wrong"))] ∧
    (sendMessage xState emptyDetail).1.chatHistory ≠
      [Element.mk ["message", "user"] "" (Bubble.mk ["bubble"] (BubbleContent.text "X")),
       Element.mk ["message", "system"] ""
        (Bubble.mk ["bubble"] (BubbleContent.text ("Error: " ++ "")))] ∧
    (sendMessage xState nullBody).1.chatHistory =
      [Element.mk ["message", "user"] "" (Bubble.mk ["bubble"] (BubbleContent.text "X")),
       Element.mk ["message", "system"] ""
        (Bubble.mk ["bubble"]
          (BubbleContent.text "Error: Could not connect to server."))] := by
  decide

/-- C4: for a non-empty trimmed input `t`, when `fetch` rejects or
`response.json()` rejects (whatever the `ok` flag of the response), `sendMessage`
leaves the earlier transcript followed by the `user` message `t` and one `system`
message (classes `message` and `system`) with the fixed text
`Error: Could not connect to server.`; the reason of the rejection appears
nowhere in the transcript and is written to the console. -/
theorem sendMessage_transport_failure (st : State) (ok : Bool) (reason : String)
    (hno : noTyping st.chatHistory) (hne : jsTrim st.userInput.value ≠ "") :
    (sendMessage st (.fetchRejected reason)).1.chatHistory =
        st.chatHistory ++
          [Element.mk ["message", "user"] ""
            (Bubble.mk ["bubble"] (BubbleContent.text (jsTrim st.userInput.value))),
           Element.mk ["message", "system"] ""
            (Bubble.mk ["bubble"]
              (BubbleContent.text "Error: Could not connect to server."))] ∧
    (sendMessage st (.jsonRejected ok reason)).1.chatHistory =
        st.chatHistory ++
          [Element.mk ["message", "user"] ""
            (Bubble.mk ["bubble"] (BubbleContent.text (jsTrim st.userInput.value))),
           Element.mk ["message", "system"] ""
            (Bubble.mk ["bubble"]
              (BubbleContent.text "Error: Could not connect to server."))] ∧
    (sendMessage st (.fetchRejected reason)).1.console =
        st.console ++ [JsError.rejection reason] ∧
    (sendMessage st (.jsonRejected ok reason)).1.console =
        st.console ++ [JsError.rejection reason] := by
  rw [sendMessage_of_nonempty st _ hne, sendMessage_of_nonempty st _ hne]
  simp only [sendMessageFinish, afterRejection_eq, sendingState_erase st _ hno]
  simp [sendingState, messageElement]

/-- C4 at `X` with a rejected `fetch` and with a rejected `response.json()`. -/
theorem sendMessage_transport_failure_witness :
    (sendMessage xState (.fetchRejected "Failed to fetch")).1.chatHistory =
      [Element.mk ["message", "user"] "" (Bubble.mk ["bubble"] (BubbleContent.text "X")),
       Element.mk ["message", "system"] ""
        (Bubble.mk ["bubble"]
          (BubbleContent.text "Error: Could not connect to server."))] ∧
    (sendMessage xState (.jsonRejected true "Unexpected token")).1.console =
      [JsError.rejection "Unexpected token"] :=
  ⟨(sendMessage_transport_failure xState true "Failed to fetch" (by decide) (by decide)).1,
   (sendMessage_transport_failure xState true "Unexpected token" (by decide)
      (by decide)).2.2.2⟩

/-- C5: when the text of the field is empty or holds only white space,
`sendMessage` issues no request and leaves the whole state as it was, for the
synchronous part, for the completed call, and as a turn of the event loop. -/
theorem sendMessage_blank_noop (st : State) (o : Outcome)
    (hblank : ∀ c ∈ st.userInput.value.data, isJsWhiteSpace c = true) :
    sendMessageStart st = (st, none) ∧ sendMessage st o = (st, none) ∧
    ∀ pending sent, invoke { st := st, pending := pending, sent := sent } =
      { st := st, pending := pending, sent := sent } := by
  have h : jsTrim st.userInput.value = "" := (jsTrim_eq_empty_iff _).mpr hblank
  have hs := sendMessageStart_of_empty st h
  refine ⟨hs, by simp [sendMessage, hs], ?_⟩
  intro pending sent
  simp [invoke, hs]

/-- C5 at a field holding a blank, a tab, a line feed and a blank. -/
theorem sendMessage_blank_noop_witness :
    sendMessageStart (initialState [] " \t\n ") = (initialState [] " \t\n ", none) ∧
    sendMessage (initialState [] " \t\n ") hiThere = (initialState [] " \t\n ", none) ∧
    ∀ pending sent,
      invoke { st := initialState [] " \t\n ", pending := pending, sent := sent } =
        { st := initialState [] " \t\n ", pending := pending, sent := sent } :=
  sendMessage_blank_noop (initialState [] " \t\n ") hiThere (by decide)

/-! ## The event loop -/

theorem pending_singleton (l : List Pending) (i : Nat) (x : Pending)
    (hl : l.length ≤ 1) (hg : l.get? i = some x) : l = [x] ∧ i = 0 := by
  match l, hl with
  | [], _ => simp at hg
  | [y], _ =>
    cases i with
    | zero => simp at hg; simp [hg]
    | succ n => simp at hg

theorem invoke_of_empty (p : Page) (h : jsTrim p.st.userInput.value = "") :
    invoke p = p := by
  simp [invoke, sendMessageStart_of_empty p.st h]

theorem invoke_of_nonempty (p : Page) (h : jsTrim p.st.userInput.value ≠ "") :
    invoke p =
      { st := sendingState p.st (jsTrim p.st.userInput.value),
        pending := p.pending ++ [Pending.fetch],
        sent := p.sent ++
          [{ url := "/chat", method := "POST",
             headers := [("Content-Type", "application/json")],
             body := jsonStringify (payloadFor (jsTrim p.st.userInput.value) p.st.sessionId) }] } := by
  simp [invoke, sendMessageStart_of_nonempty p.st h]

theorem ctlInv_idle (p : Page) (hinv : CtlInv p) (h : p.st.userInput.disabled = false) :
    p.pending = [] := by
  have := hinv.inputDisabled
  rw [h] at this
  cases hp : p.pending with
  | nil => rfl
  | cons x xs => simp [hp] at this

theorem ctlInv_idle_btn (p : Page) (hinv : CtlInv p) (h : p.st.sendBtn.disabled = false) :
    p.pending = [] := by
  have := hinv.btnDisabled
  rw [h] at this
  cases hp : p.pending with
  | nil => rfl
  | cons x xs => simp [hp] at this

theorem ctlInv_invoke (p : Page) (hinv : CtlInv p) (hidle : p.pending = []) :
    CtlInv (invoke p) := by
  by_cases h : jsTrim p.st.userInput.value = ""
  · rw [invoke_of_empty p h]; exact hinv
  · rw [invoke_of_nonempty p h]
    exact
      { atMostOne := by simp [hidle]
        inputDisabled := by simp [sendingState]
        btnDisabled := by simp [sendingState]
        cleared := by intro _; simp [sendingState]
        token := by simpa [sendingState] using hinv.token }

theorem ctlInv_settle (p : Page) (hinv : CtlInv p) (o : Outcome) :
    CtlInv { p with st := sendMessageFinish o p.st, pending := [] } := by
  obtain ⟨text, sender, sid, console, _, hsid, h | h⟩ := sendMessageFinish_shape o p.st
  all_goals
    exact
      { atMostOne := by simp
        inputDisabled := by simp [h]
        btnDisabled := by simp [h]
        cleared := by intro hc; simp at hc
        token := by
          rcases hsid with hs | hs
          · simpa [h, hs] using hinv.token
          · right; simpa [h] using hs }

theorem ctlInv_step (p : Page) (e : Event) (hinv : CtlInv p) : CtlInv (step p e) := by
  cases e with
  | edit text =>
    simp only [step]
    split
    · exact hinv
    · rename_i hd
      have hidle := ctlInv_idle p hinv (by simpa using hd)
      exact
        { atMostOne := hinv.atMostOne
          inputDisabled := hinv.inputDisabled
          btnDisabled := hinv.btnDisabled
          cleared := by intro hc; exact absurd hidle hc
          token := hinv.token }
  | click =>
    simp only [step]
    split
    · exact hinv
    · rename_i hd
      exact ctlInv_invoke p hinv (ctlInv_idle_btn p hinv (by simpa using hd))
  | keypress key =>
    simp only [step]
    split
    · exact hinv
    · rename_i hd
      split
      · exact ctlInv_invoke p hinv (ctlInv_idle p hinv (by simpa using hd))
      · exact hinv
  | fetchResolved i ok =>
    simp only [step]
    split
    · rename_i hg
      obtain ⟨hp, hi⟩ := pending_singleton _ _ _ hinv.atMostOne hg
      exact
        { atMostOne := by simp [hp]
          inputDisabled := by simpa [hp, hi] using hinv.inputDisabled
          btnDisabled := by simpa [hp, hi] using hinv.btnDisabled
          cleared := by intro _; exact hinv.cleared (by simp [hp])
          token := hinv.token }
    · exact hinv
  | fetchRejected i reason =>
    simp only [step]
    split
    · rename_i hg
      obtain ⟨hp, hi⟩ := pending_singleton _ _ _ hinv.atMostOne hg
      have := ctlInv_settle p hinv (.fetchRejected reason)
      simpa [hp, hi, sendMessageFinish] using this
    · exact hinv
  | jsonResolved i data =>
    simp only [step]
    split
    · rename_i ok hg
      obtain ⟨hp, hi⟩ := pending_singleton _ _ _ hinv.atMostOne hg
      have := ctlInv_settle p hinv (.json ok data)
      simpa [hp, hi, sendMessageFinish] using this
    · exact hinv
  | jsonRejected i reason =>
    simp only [step]
    split
    · rename_i ok hg
      obtain ⟨hp, hi⟩ := pending_singleton _ _ _ hinv.atMostOne hg
      have := ctlInv_settle p hinv (.jsonRejected ok reason)
      simpa [hp, hi, sendMessageFinish] using this
    · exact hinv

theorem ctlInv_run (p : Page) (events : List Event) (hinv : CtlInv p) :
    CtlInv (run p events) := by
  induction events generalizing p with
  | nil => exact hinv
  | cons e es ih => exact ih (step p e) (ctlInv_step p e hinv)

theorem ctlInv_initial (history : List Element) (value : String) :
    CtlInv (initialPage history value) :=
  { atMostOne := by simp [initialPage]
    inputDisabled := by simp [initialPage, initialState]
    btnDisabled := by simp [initialPage, initialState]
    cleared := by intro hc; simp [initialPage] at hc
    token := Or.inl rfl }

theorem typingInv_invoke (p : Page) (hty : TypingInv p) (hidle : p.pending = []) :
    TypingInv (invoke p) := by
  by_cases h : jsTrim p.st.userInput.value = ""
  · rw [invoke_of_empty p h]; exact hty
  · rw [invoke_of_nonempty p h]
    refine ⟨by intro hc; simp at hc, fun _ => ?_⟩
    exact ⟨p.st.chatHistory ++ [messageElement (jsTrim p.st.userInput.value) "user"],
      noTyping_append_message _ _ _ (hty.1 hidle), by simp [sendingState]⟩

theorem typingInv_settle (p : Page) (hty : TypingInv p) (hp : p.pending ≠ []) (o : Outcome) :
    TypingInv { p with st := sendMessageFinish o p.st, pending := [] } := by
  obtain ⟨pre, hpre, hst⟩ := hty.2 hp
  obtain ⟨text, sender, sid, console, _, _, h⟩ := sendMessageFinish_pending o p.st pre hpre hst
  refine ⟨fun _ => ?_, by intro hc; simp at hc⟩
  simpa [h] using noTyping_append_message pre text sender hpre

theorem typingInv_step (p : Page) (e : Event) (hinv : CtlInv p) (hty : TypingInv p) :
    TypingInv (step p e) := by
  cases e with
  | edit text =>
    simp only [step]
    split
    · exact hty
    · exact hty
  | click =>
    simp only [step]
    split
    · exact hty
    · rename_i hd
      exact typingInv_invoke p hty (ctlInv_idle_btn p hinv (by simpa using hd))
  | keypress key =>
    simp only [step]
    split
    · exact hty
    · rename_i hd
      split
      · exact typingInv_invoke p hty (ctlInv_idle p hinv (by simpa using hd))
      · exact hty
  | fetchResolved i ok =>
    simp only [step]
    split
    · rename_i hg
      obtain ⟨hp, hi⟩ := pending_singleton _ _ _ hinv.atMostOne hg
      refine ⟨by intro hc; simp [hp, hi] at hc, fun _ => ?_⟩
      exact hty.2 (by simp [hp])
    · exact hty
  | fetchRejected i reason =>
    simp only [step]
    split
    · rename_i hg
      obtain ⟨hp, hi⟩ := pending_singleton _ _ _ hinv.atMostOne hg
      have := typingInv_settle p hty (by simp [hp]) (.fetchRejected reason)
      simpa [hp, hi, sendMessageFinish] using this
    · exact hty
  | jsonResolved i data =>
    simp only [step]
    split
    · rename_i ok hg
      obtain ⟨hp, hi⟩ := pending_singleton _ _ _ hinv.atMostOne hg
      have := typingInv_settle p hty (by simp [hp]) (.json ok data)
      simpa [hp, hi, sendMessageFinish] using this
    · exact hty
  | jsonRejected i reason =>
    simp only [step]
    split
    · rename_i ok hg
      obtain ⟨hp, hi⟩ := pending_singleton _ _ _ hinv.atMostOne hg
      have := typingInv_settle p hty (by simp [hp]) (.jsonRejected ok reason)
      simpa [hp, hi, sendMessageFinish] using this
    · exact hty

theorem typingInv_run (p : Page) (events : List Event) (hinv : CtlInv p)
    (hty : TypingInv p) : TypingInv (run p events) := by
  induction events generalizing p with
  | nil => exact hty
  | cons e es ih => exact ih (step p e) (ctlInv_step p e hinv) (typingInv_step p e hinv hty)

theorem typingInv_initial (history : List Element) (value : String)
    (hno : noTyping history) : TypingInv (initialPage history value) :=
  ⟨fun _ => hno, by intro hc; simp [initialPage] at hc⟩

theorem countP_typing_of_noTyping (l : List Element) (h : noTyping l) :
    l.countP isTyping = 0 := by
  rw [List.countP_eq_zero]
  intro e he
  simp [h e he]

theorem jsonStringify_of_truthy (sid : JsVal) (h : sid.truthy = true) :
    ∃ js, jsonStringify sid = some js := by
  cases sid with
  | undefined => simp [JsVal.truthy] at h
  | null => exact ⟨_, rfl⟩
  | bool b => exact ⟨_, rfl⟩
  | num n => exact ⟨_, rfl⟩
  | str s => exact ⟨_, rfl⟩
  | arr items => exact ⟨_, by rw [jsonStringify]⟩
  | obj fields => exact ⟨_, by rw [jsonStringify]⟩

theorem jsonStringify_payloadFor_falsy (message : String) (sid : JsVal)
    (h : sid.truthy = false) :
    jsonStringify (payloadFor message sid) =
      some ("\x7b\"message\":" ++ quoteJSON message ++ "\x7d") := by
  have hq : quoteJSON "message" = "\"message\"" := by decide
  have e1 : ("\x7b\"message\":" : String) = "\x7b" ++ "\"message\"" ++ ":" := by decide
  rw [e1]
  simp only [payloadFor, h, jsonStringify, stringifyFields, hq, String.intercalate,
    String.intercalate.go, String.append_assoc, Bool.false_eq_true, if_false]

theorem jsonStringify_payloadFor_truthy (message : String) (sid : JsVal) (js : String)
    (h : sid.truthy = true) (hjs : jsonStringify sid = some js) :
    jsonStringify (payloadFor message sid) =
      some ("\x7b\"message\":" ++ quoteJSON message ++ ",\"session_id\":" ++ js ++ "\x7d") := by
  have hq : quoteJSON "message" = "\"message\"" := by decide
  have hq2 : quoteJSON "session_id" = "\"session_id\"" := by decide
  have e1 : ("\x7b\"message\":" : String) = "\x7b" ++ "\"message\"" ++ ":" := by decide
  have e2 : (",\"session_id\":" : String) = "," ++ "\"session_id\"" ++ ":" := by decide
  rw [e1, e2]
  simp only [payloadFor, h, jsonStringify, stringifyFields, hjs, hq, hq2, String.intercalate,
    String.intercalate.go, String.append_assoc, if_true]

theorem request_body_of_null (message : String) (sid : JsVal) (h : sid = .null) :
    jsonStringify (payloadFor message sid) =
      some ("\x7b\"message\":" ++ quoteJSON message ++ "\x7d") := by
  subst h
  exact jsonStringify_payloadFor_falsy message .null rfl

/-- C7 (amended): in every state the page can reach, when the trimmed text `t` of
the field is not empty, `sendMessage` issues one request: a POST to `/chat` with a
JSON content type, whose body is the JSON text of an object with the field
`message` holding `t` (the text of the user message it shows), and with a field
`session_id` exactly when `sessionId` is not `null`.  That field holds the JSON
text of the held token: for a string token the token itself, quoted. -/
theorem request_payload (history : List Element) (value : String) (events : List Event)
    (hne : jsTrim (reached history value events).st.userInput.value ≠ "") :
    ∃ r, (sendMessageStart (reached history value events).st).2 = some r ∧
      (∀ o, (sendMessage (reached history value events).st o).2 = some r) ∧
      r.url = "/chat" ∧ r.method = "POST" ∧
      r.headers = [("Content-Type", "application/json")] ∧
      (sendMessageStart (reached history value events).st).1.chatHistory =
        (reached history value events).st.chatHistory ++
          [Element.mk ["message", "user"] ""
            (Bubble.mk ["bubble"]
              (BubbleContent.text (jsTrim (reached history value events).st.userInput.value))),
           Element.mk ["message", "bot", "typing"] "typing-indicator"
            (Bubble.mk ["bubble", "typing-indicator"]
              (BubbleContent.html "<span></span><span></span><span></span>"))] ∧
      ((reached history value events).st.sessionId = .null →
        r.body = some ("\x7b\"message\":" ++
          quoteJSON (jsTrim (reached history value events).st.userInput.value) ++ "\x7d")) ∧
      (∀ s, (reached history value events).st.sessionId = .str s →
        r.body = some ("\x7b\"message\":" ++
          quoteJSON (jsTrim (reached history value events).st.userInput.value) ++
          ",\"session_id\":" ++ quoteJSON s ++ "\x7d")) ∧
      ((reached history value events).st.sessionId ≠ .null →
        ∃ js, jsonStringify (reached history value events).st.sessionId = some js ∧
          r.body = some ("\x7b\"message\":" ++
            quoteJSON (jsTrim (reached history value events).st.userInput.value) ++
            ",\"session_id\":" ++ js ++ "\x7d")) := by
  have hinv : CtlInv (reached history value events) :=
    ctlInv_run _ events (ctlInv_initial history value)
  refine ⟨_, congrArg Prod.snd (sendMessageStart_of_nonempty _ hne), ?_, rfl, rfl, rfl,
    ?_, ?_, ?_, ?_⟩
  · intro o
    rw [sendMessage_of_nonempty _ o hne]
  · rw [sendMessageStart_of_nonempty _ hne]
    simp [sendingState, messageElement, typingElement]
  · intro h
    exact request_body_of_null _ _ h
  · intro s hs
    rcases hinv.token with h | h
    · rw [hs] at h; cases h
    · exact jsonStringify_payloadFor_truthy _ _ _ h (by rw [hs]; rfl)
  · intro hn
    rcases hinv.token with h | h
    · exact absurd h hn
    · obtain ⟨js, hjs⟩ := jsonStringify_of_truthy _ h
      exact ⟨js, hjs, jsonStringify_payloadFor_truthy _ _ _ h hjs⟩

/-- C7 after a first exchange stored `abc` and the user typed `more`: the body is
the JSON text of the object with `message` `more` and `session_id` `abc`; and the
same with a typed text that needs escaping. -/
theorem request_payload_witness :
    (∃ r, (sendMessageStart (reached [] "" helloThenMore).st).2 = some r ∧
      r.url = "/chat" ∧ r.method = "POST" ∧
      r.body = some "\x7b\"message\":\"more\",\"session_id\":\"abc\"\x7d") ∧
    (∃ r, (sendMessageStart (reached [] "" helloThenQuoted).st).2 = some r ∧
      r.body =
        some "\x7b\"message\":\"a\\tb\\\\c\\\"d\\u0001e\",\"session_id\":\"abc\"\x7d") := by
  obtain ⟨r, h1, _, h3, h4, _, _, _, h8, _⟩ :=
    request_payload [] "" helloThenMore (by decide)
  obtain ⟨q, k1, _, _, _, _, _, _, k8, _⟩ :=
    request_payload [] "" helloThenQuoted (by decide)
  exact ⟨⟨r, h1, h3, h4, by rw [h8 "abc" rfl]; decide⟩,
    ⟨q, k1, by rw [k8 "abc" rfl]; decide⟩⟩

/-- C7 fails as stated: a response with `session_id: 1e999` stores the number
`Infinity`, a token the page then holds; the next request has a `session_id`
field, but it is `null`, not that token. -/
theorem infinite_token_is_sent_as_null :
    (reached [] "" infinityThenMore).st.sessionId = .num infinity ∧
    jsonStringify (.num infinity) = some "null" ∧
    (sendMessageStart (reached [] "" infinityThenMore).st).2.bind Request.body =
      some "\x7b\"message\":\"more\",\"session_id\":null\x7d" :=
  ⟨rfl, rfl, by decide⟩

/-- C8: in every state the page can reach, the field and the button are both
enabled exactly when no exchange is pending and both disabled exactly when one
is.  For a non-empty submission both are disabled when the request is issued, and
for every outcome the completed call leaves both enabled. -/
theorem controls_enabled_iff_idle (history : List Element) (value : String)
    (events : List Event) :
    (((reached history value events).st.userInput.disabled = false ∧
      (reached history value events).st.sendBtn.disabled = false) ↔
        (reached history value events).pending = []) ∧
    (((reached history value events).st.userInput.disabled = true ∧
      (reached history value events).st.sendBtn.disabled = true) ↔
        (reached history value events).pending ≠ []) ∧
    (∀ st : State, jsTrim st.userInput.value ≠ "" →
      (sendMessageStart st).2.isSome = true ∧
      (sendMessageStart st).1.userInput.disabled = true ∧
      (sendMessageStart st).1.sendBtn.disabled = true) ∧
    (∀ (st : State) (o : Outcome), jsTrim st.userInput.value ≠ "" →
      (sendMessage st o).1.userInput.disabled = false ∧
      (sendMessage st o).1.sendBtn.disabled = false) := by
  have hinv : CtlInv (reached history value events) :=
    ctlInv_run _ events (ctlInv_initial history value)
  have h1 := hinv.inputDisabled
  have h2 := hinv.btnDisabled
  refine ⟨?_, ?_, ?_, ?_⟩
  · cases hp : (reached history value events).pending <;> simp [hp] at h1 h2 <;>
      simp [h1, h2]
  · cases hp : (reached history value events).pending <;> simp [hp] at h1 h2 <;>
      simp [h1, h2]
  · intro st hne
    rw [sendMessageStart_of_nonempty st hne]
    simp [sendingState]
  · intro st o hne
    rw [sendMessage_of_nonempty st o hne]
    obtain ⟨text, sender, sid, console, _, _, h | h⟩ := sendMessageFinish_shape o
      (sendingState st (jsTrim st.userInput.value)) <;> simp [h]

/-- C9: starting from a transcript without typing placeholder, the transcript of
every state the page can reach holds exactly one element with id
`typing-indicator` while an exchange is pending and none while none is.  A
non-empty submission puts exactly one in place, and every completed call of
`sendMessage` that started without placeholder ends without one, whatever the
outcome. -/
theorem typing_placeholder_lifecycle (history : List Element) (value : String)
    (events : List Event) (hno : noTyping history) :
    ((reached history value events).pending ≠ [] →
      (reached history value events).st.chatHistory.countP isTyping = 1) ∧
    ((reached history value events).pending = [] →
      (reached history value events).st.chatHistory.countP isTyping = 0) ∧
    (∀ st : State, noTyping st.chatHistory → jsTrim st.userInput.value ≠ "" →
      (sendMessageStart st).1.chatHistory.countP isTyping = 1) ∧
    (∀ (st : State) (o : Outcome), noTyping st.chatHistory →
      noTyping (sendMessage st o).1.chatHistory) := by
  have hinv : CtlInv (reached history value events) :=
    ctlInv_run _ events (ctlInv_initial history value)
  have hty : TypingInv (reached history value events) :=
    typingInv_run _ events (ctlInv_initial history value) (typingInv_initial history value hno)
  refine ⟨?_, ?_, ?_, ?_⟩
  · intro hp
    obtain ⟨pre, hpre, hst⟩ := hty.2 hp
    rw [hst, List.countP_append, countP_typing_of_noTyping pre hpre]
    rfl
  · intro hp
    exact countP_typing_of_noTyping _ (hty.1 hp)
  · intro st hst hne
    rw [sendMessageStart_of_nonempty st hne]
    have : (sendingState st (jsTrim st.userInput.value)).chatHistory =
        (st.chatHistory ++ [messageElement (jsTrim st.userInput.value) "user"]) ++
          [typingElement] := by simp [sendingState]
    rw [this, List.countP_append,
      countP_typing_of_noTyping _ (noTyping_append_message _ _ _ hst)]
    rfl
  · intro st o hst
    by_cases hne : jsTrim st.userInput.value = ""
    · simpa [sendMessage, sendMessageStart_of_empty st hne] using hst
    · rw [sendMessage_of_nonempty st o hne]
      obtain ⟨text, sender, sid, console, _, _, h⟩ :=
        sendMessageFinish_pending o (sendingState st (jsTrim st.userInput.value))
          (st.chatHistory ++ [messageElement (jsTrim st.userInput.value) "user"])
          (noTyping_append_message _ _ _ hst) (by simp [sendingState])
      simp only [h]
      exact noTyping_append_message _ _ _ (noTyping_append_message _ _ _ hst)

/-- C9 while an exchange waits for its response body. -/
theorem typing_placeholder_lifecycle_witness :
    (((reached [] "" helloPending).pending ≠ [] →
      (reached [] "" helloPending).st.chatHistory.countP isTyping = 1) ∧
    ((reached [] "" helloPending).pending = [] →
      (reached [] "" helloPending).st.chatHistory.countP isTyping = 0) ∧
    (∀ st : State, noTyping st.chatHistory → jsTrim st.userInput.value ≠ "" →
      (sendMessageStart st).1.chatHistory.countP isTyping = 1) ∧
    (∀ (st : State) (o : Outcome), noTyping st.chatHistory →
      noTyping (sendMessage st o).1.chatHistory)) ∧
    (reached [] "" helloPending).pending = [Pending.json true] ∧
    (reached [] "" helloPending).st.chatHistory.countP isTyping = 1 :=
  ⟨typing_placeholder_lifecycle [] "" helloPending (by decide), by decide,
   (typing_placeholder_lifecycle [] "" helloPending (by decide)).1 (by decide)⟩

/-- C10: in every state the page can reach at most one call of `sendMessage` is
suspended, and while one is no event issues a request: a click on the button, a
key press in the field and an edit of the field leave the page as it is, the
settling of a promise sends nothing, and `sendMessage` itself would return at its
empty-input check. -/
theorem single_flight (history : List Element) (value : String) (events : List Event) :
    (reached history value events).pending.length ≤ 1 ∧
    ((reached history value events).pending ≠ [] →
      step (reached history value events) .click = reached history value events ∧
      (∀ key, step (reached history value events) (.keypress key) =
        reached history value events) ∧
      (∀ text, step (reached history value events) (.edit text) =
        reached history value events) ∧
      (∀ e, (step (reached history value events) e).sent =
        (reached history value events).sent) ∧
      (∀ e, (step (reached history value events) e).pending.length ≤ 1) ∧
      (sendMessageStart (reached history value events).st).2 = none) := by
  have hinv : CtlInv (reached history value events) :=
    ctlInv_run _ events (ctlInv_initial history value)
  refine ⟨hinv.atMostOne, fun hp => ?_⟩
  have h1 : (reached history value events).st.userInput.disabled = true := by
    have := hinv.inputDisabled
    cases hq : (reached history value events).pending with
    | nil => exact absurd hq hp
    | cons x xs => simpa [hq] using this
  have h2 : (reached history value events).st.sendBtn.disabled = true := by
    have := hinv.btnDisabled
    cases hq : (reached history value events).pending with
    | nil => exact absurd hq hp
    | cons x xs => simpa [hq] using this
  have hclick : step (reached history value events) .click = reached history value events := by
    simp [step, h2]
  have hkey : ∀ key, step (reached history value events) (.keypress key) =
      reached history value events := by
    intro key; simp [step, h1]
  have hedit : ∀ text, step (reached history value events) (.edit text) =
      reached history value events := by
    intro text; simp [step, h1]
  refine ⟨hclick, hkey, hedit, ?_, ?_, ?_⟩
  · intro e
    cases e with
    | edit text => rw [hedit]
    | click => rw [hclick]
    | keypress key => rw [hkey]
    | fetchResolved i ok => simp only [step]; split <;> rfl
    | fetchRejected i reason => simp only [step]; split <;> rfl
    | jsonResolved i data => simp only [step]; split <;> rfl
    | jsonRejected i reason => simp only [step]; split <;> rfl
  · intro e
    exact (ctlInv_step _ e hinv).atMostOne
  · rw [sendMessageStart_of_empty _ (by rw [hinv.cleared hp]; decide)]

/-- C10 while an exchange waits for its response body. -/
theorem single_flight_witness :
    (reached [] "" helloPending).pending.length ≤ 1 ∧
    (reached [] "" helloPending).pending = [Pending.json true] ∧
    step (reached [] "" helloPending) .click = reached [] "" helloPending ∧
    (sendMessageStart (reached [] "" helloPending).st).2 = none :=
  ⟨(single_flight [] "" helloPending).1, by decide,
   ((single_flight [] "" helloPending).2 (by decide)).1,
   ((single_flight [] "" helloPending).2 (by decide)).2.2.2.2.2⟩

/-! ## The session token across exchanges -/

theorem finallyBlock_sessionId (st : State) : (finallyBlock st).sessionId = st.sessionId := rfl

theorem catchBlock_sessionId (e : JsError) (st : State) :
    (catchBlock e st).sessionId = st.sessionId := by
  rw [catchBlock_eq]

theorem afterJson_sessionId (ok : Bool) (data : JsVal) (st : State) :
    (afterJson ok data st).sessionId = (tryBody ok data st).1.sessionId := by
  unfold afterJson
  split
  · rename_i h; simp [h, finallyBlock_sessionId]
  · rename_i h; simp [h, finallyBlock_sessionId, catchBlock_sessionId]

theorem tryBody_failure_sessionId (data : JsVal) (st : State) :
    (tryBody false data st).1.sessionId = st.sessionId := by
  rcases tryBody_cases false data st with ⟨e, he⟩ | ⟨text, sender, sid, _, _, he⟩
  · rw [he]; rfl
  · cases hd : data.getProp "detail" with
    | error e => simp [tryBody, hd, removeTyping]
    | ok detail =>
      cases hs : (if detail.truthy then detail else JsVal.str "Something went wrong").toStr with
      | error e => simp [tryBody, hd, hs, removeTyping]
      | ok s => simp [tryBody, hd, hs, appendMessage_str, removeTyping]

theorem getProp_obj (fields : List (String × JsVal)) (key : String) :
    JsVal.getProp (.obj fields) key = .ok ((fields.lookup key).getD .undefined) := by
  cases h : fields.lookup key <;> simp [JsVal.getProp, h]

theorem tryBody_true_sessionId (data : JsVal) (st : State) (a sid : JsVal) (s : String)
    (ha : data.getProp "answer" = .ok a) (hs : toTextContent a = .ok s)
    (hsid : data.getProp "session_id" = .ok sid) :
    (tryBody true data st).1.sessionId = if sid.truthy then sid else st.sessionId := by
  cases htr : sid.truthy <;> simp [tryBody, ha, appendMessage, hs, hsid, htr, removeTyping]

theorem tryBody_success_sessionId (data : JsVal) (st : State)
    (h : (Outcome.json true data).answerRenders = true) :
    (tryBody true data st).1.sessionId =
      (suppliedToken (.json true data)).getD st.sessionId := by
  cases data with
  | obj fields =>
    have hs : ∃ s, toTextContent ((fields.lookup "answer").getD .undefined) = .ok s := by
      simp only [Outcome.answerRenders] at h
      cases hl : fields.lookup "answer" with
      | none => exact ⟨"", rfl⟩
      | some b =>
        simp only [hl] at h
        cases ht : toTextContent b with
        | ok s => exact ⟨s, by simp [ht]⟩
        | error e => simp [ht, Except.toBool] at h
    obtain ⟨s, hs⟩ := hs
    rw [tryBody_true_sessionId _ st _ _ s (getProp_obj fields "answer") hs
      (getProp_obj fields "session_id")]
    cases hl : fields.lookup "session_id" with
    | none => simp [suppliedToken, hl, JsVal.truthy]
    | some sid => cases htr : sid.truthy <;> simp [suppliedToken, hl, htr, Option.filter]
  | undefined => simp [tryBody, JsVal.getProp, removeTyping, suppliedToken]
  | null => simp [tryBody, JsVal.getProp, removeTyping, suppliedToken]
  | bool b =>
    rw [tryBody_true_sessionId (.bool b) st .undefined .undefined "" rfl rfl rfl]
    simp [suppliedToken, JsVal.truthy]
  | num n =>
    rw [tryBody_true_sessionId (.num n) st .undefined .undefined "" rfl rfl rfl]
    simp [suppliedToken, JsVal.truthy]
  | str s =>
    rw [tryBody_true_sessionId (.str s) st .undefined .undefined "" rfl rfl rfl]
    simp [suppliedToken, JsVal.truthy]
  | arr items =>
    rw [tryBody_true_sessionId (.arr items) st .undefined .undefined "" rfl rfl rfl]
    simp [suppliedToken, JsVal.truthy]

theorem tryBody_sessionId_of_none (ok : Bool) (data : JsVal) (st : State)
    (h : suppliedToken (.json ok data) = none) :
    (tryBody ok data st).1.sessionId = st.sessionId := by
  cases ok with
  | false => exact tryBody_failure_sessionId data st
  | true =>
    cases ha : data.getProp "answer" with
    | error e => simp [tryBody, ha, removeTyping]
    | ok a =>
      cases hs : toTextContent a with
      | error e => simp [tryBody, ha, appendMessage, hs, removeTyping]
      | ok s =>
        cases hsid : data.getProp "session_id" with
        | error e => simp [tryBody, ha, appendMessage, hs, hsid, removeTyping]
        | ok sid =>
          have hf : sid.truthy = false := by
            cases data with
            | obj fields =>
              rw [getProp_obj] at hsid
              cases hl : fields.lookup "session_id" with
              | none =>
                simp [hl] at hsid
                subst hsid; rfl
              | some v =>
                simp [hl] at hsid
                subst hsid
                simp [suppliedToken, hl, Option.filter] at h
                simpa using h
            | undefined => simp [JsVal.getProp] at hsid
            | null => simp [JsVal.getProp] at hsid
            | bool b => simp [JsVal.getProp] at hsid; subst hsid; rfl
            | num n => simp [JsVal.getProp] at hsid; subst hsid; rfl
            | str s => simp [JsVal.getProp] at hsid; subst hsid; rfl
            | arr items => simp [JsVal.getProp] at hsid; subst hsid; rfl
          rw [tryBody_true_sessionId data st a sid s ha hs hsid]
          simp [hf]

theorem sendMessageFinish_sessionId (o : Outcome) (st : State)
    (h : o.answerRenders = true) :
    (sendMessageFinish o st).sessionId = (suppliedToken o).getD st.sessionId := by
  cases o with
  | fetchRejected reason => simp [sendMessageFinish, afterRejection_eq, suppliedToken]
  | jsonRejected ok reason => simp [sendMessageFinish, afterRejection_eq, suppliedToken]
  | json ok data =>
    simp only [sendMessageFinish, afterJson_sessionId]
    cases ok with
    | true => exact tryBody_success_sessionId data st h
    | false => simp [tryBody_failure_sessionId, suppliedToken]

theorem sendMessageFinish_sessionId_of_none (o : Outcome) (st : State)
    (h : suppliedToken o = none) :
    (sendMessageFinish o st).sessionId = st.sessionId := by
  cases o with
  | fetchRejected reason => simp [sendMessageFinish, afterRejection_eq]
  | jsonRejected ok reason => simp [sendMessageFinish, afterRejection_eq]
  | json ok data =>
    simp only [sendMessageFinish, afterJson_sessionId]
    exact tryBody_sessionId_of_none ok data st h

theorem suppliedToken_truthy (o : Outcome) (v : JsVal) (h : suppliedToken o = some v) :
    v.truthy = true := by
  cases o with
  | fetchRejected reason => simp [suppliedToken] at h
  | jsonRejected ok reason => simp [suppliedToken] at h
  | json ok data =>
    cases ok with
    | false => simp [suppliedToken] at h
    | true =>
      cases data with
      | obj fields =>
        simp only [suppliedToken] at h
        cases hl : fields.lookup "session_id" with
        | none => simp [hl] at h
        | some w =>
          cases hw : w.truthy
          · simp [hl, Option.filter, hw] at h
          · simp [hl, Option.filter, hw] at h
            rw [← h]; exact hw
      | undefined => simp [suppliedToken] at h
      | null => simp [suppliedToken] at h
      | bool b => simp [suppliedToken] at h
      | num n => simp [suppliedToken] at h
      | str s => simp [suppliedToken] at h
      | arr items => simp [suppliedToken] at h

theorem heldToken_append (earlier : List Outcome) (o : Outcome) :
    heldToken (earlier ++ [o]) =
      (match suppliedToken o with
       | some v => some v
       | none => heldToken earlier) := by
  simp only [heldToken, List.reverse_append, List.reverse_singleton, List.singleton_append,
    List.findSome?_cons]
  cases suppliedToken o <;> rfl

theorem submit_of_nonempty (st : State) (text : String) (o : Outcome) (h : jsTrim text ≠ "") :
    ∃ st2, submit st text o =
      (st2, some { url := "/chat", method := "POST",
                   headers := [("Content-Type", "application/json")],
                   body := jsonStringify (payloadFor (jsTrim text) st.sessionId) }) := by
  unfold submit
  rw [sendMessage_of_nonempty _ o (by simpa using h)]
  exact ⟨_, rfl⟩

theorem submit_sessionId (st : State) (text : String) (o : Outcome) (h : jsTrim text ≠ "")
    (hr : o.answerRenders = true) :
    (submit st text o).1.sessionId = (suppliedToken o).getD st.sessionId := by
  unfold submit
  rw [sendMessage_of_nonempty _ o (by simpa using h)]
  simp only [sendMessageFinish_sessionId o _ hr]
  rfl

theorem submit_tokenSent (st : State) (text : String) (o : Outcome) (earlier : List Outcome)
    (h : jsTrim text ≠ "") (hr : o.answerRenders = true)
    (hst : tokenSent st.sessionId = heldToken earlier) :
    tokenSent (submit st text o).1.sessionId = heldToken (earlier ++ [o]) := by
  rw [submit_sessionId st text o h hr, heldToken_append]
  cases hs : suppliedToken o with
  | none => simpa using hst
  | some v => simp [tokenSent, suppliedToken_truthy o v hs]

theorem afterSubmissions_tokenSent (subs : List (String × Outcome)) :
    ∀ (st : State) (earlier : List Outcome),
      (∀ s ∈ subs, jsTrim s.1 ≠ "") → (∀ s ∈ subs, s.2.answerRenders = true) →
      tokenSent st.sessionId = heldToken earlier →
      tokenSent (afterSubmissions st subs).sessionId =
        heldToken (earlier ++ subs.map Prod.snd) := by
  induction subs with
  | nil => intro st earlier _ _ hst; simpa [afterSubmissions] using hst
  | cons s rest ih =>
    intro st earlier hne hr hst
    have h := ih (submit st s.1 s.2).1 (earlier ++ [s.2])
      (fun x hx => hne x (List.mem_cons_of_mem _ hx))
      (fun x hx => hr x (List.mem_cons_of_mem _ hx))
      (submit_tokenSent st s.1 s.2 earlier (hne s (List.mem_cons_self _ _))
        (hr s (List.mem_cons_self _ _)) hst)
    simpa [afterSubmissions] using h

theorem tokenSent_eq_none (sid : JsVal) (h : tokenSent sid = none) : sid.truthy = false := by
  cases ht : sid.truthy
  · rfl
  · simp [tokenSent, ht] at h

theorem tokenSent_eq_some (sid tok : JsVal) (h : tokenSent sid = some tok) :
    sid.truthy = true ∧ sid = tok := by
  cases ht : sid.truthy
  · simp [tokenSent, ht] at h
  · simp [tokenSent, ht] at h
    exact ⟨rfl, h⟩

/-- C6 (amended): after every sequence of non-empty submissions started from the
freshly loaded page, each run to completion with an outcome whose answer could be
shown, the next request carries as `session_id` the JSON text of the token
supplied by the most recent of these success responses whose `session_id` was
truthy (for a string: non-empty, and then the field is that string, quoted), and
has no `session_id` field when there was none; in particular the first request
has none.  An outcome that supplies no such token (server error, transport
failure, success without a token or with an empty one) leaves the held token as
it was. -/
theorem session_token_carried (history : List Element) (value : String)
    (earlier : List (String × Outcome)) (text : String) (o : Outcome)
    (hne : ∀ s ∈ earlier, jsTrim s.1 ≠ "") (hr : ∀ s ∈ earlier, s.2.answerRenders = true)
    (ht : jsTrim text ≠ "") :
    (∃ r, (submit (afterSubmissions (initialState history value) earlier) text o).2 = some r ∧
      r.url = "/chat" ∧
      (heldToken (earlier.map Prod.snd) = none →
        r.body = some ("\x7b\"message\":" ++ quoteJSON (jsTrim text) ++ "\x7d")) ∧
      (∀ s, heldToken (earlier.map Prod.snd) = some (.str s) →
        r.body = some ("\x7b\"message\":" ++ quoteJSON (jsTrim text) ++
          ",\"session_id\":" ++ quoteJSON s ++ "\x7d")) ∧
      (∀ tok, heldToken (earlier.map Prod.snd) = some tok →
        ∃ js, jsonStringify tok = some js ∧
          r.body = some ("\x7b\"message\":" ++ quoteJSON (jsTrim text) ++
            ",\"session_id\":" ++ js ++ "\x7d")) ∧
      (earlier = [] →
        r.body = some ("\x7b\"message\":" ++ quoteJSON (jsTrim text) ++ "\x7d"))) ∧
    (∀ (st : State) (text2 : String) (o2 : Outcome), suppliedToken o2 = none →
      (submit st text2 o2).1.sessionId = st.sessionId) := by
  have hk : tokenSent (afterSubmissions (initialState history value) earlier).sessionId =
      heldToken (earlier.map Prod.snd) := by
    simpa using afterSubmissions_tokenSent earlier (initialState history value) [] hne hr rfl
  obtain ⟨st2, hsub⟩ :=
    submit_of_nonempty (afterSubmissions (initialState history value) earlier) text o ht
  refine ⟨⟨_, by rw [hsub], rfl, ?_, ?_, ?_, ?_⟩, ?_⟩
  · intro hnone
    rw [hnone] at hk
    exact jsonStringify_payloadFor_falsy _ _ (tokenSent_eq_none _ hk)
  · intro s hs
    rw [hs] at hk
    obtain ⟨h1, h2⟩ := tokenSent_eq_some _ _ hk
    exact jsonStringify_payloadFor_truthy _ _ _ h1 (by rw [h2]; rfl)
  · intro tok hs
    rw [hs] at hk
    obtain ⟨h1, h2⟩ := tokenSent_eq_some _ _ hk
    obtain ⟨js, hjs⟩ := jsonStringify_of_truthy _ h1
    exact ⟨js, by rw [← h2]; exact hjs, jsonStringify_payloadFor_truthy _ _ _ h1 hjs⟩
  · intro he
    subst he
    exact jsonStringify_payloadFor_falsy _ _ rfl
  · intro st text2 o2 ho
    unfold submit
    by_cases hb : jsTrim text2 = ""
    · simp [sendMessage, sendMessageStart_of_empty _ (show jsTrim
        ({ st with userInput := { st.userInput with value := text2 } } : State).userInput.value
          = "" from hb)]
    · rw [sendMessage_of_nonempty _ o2 (by simpa using hb)]
      simp only [sendMessageFinish_sessionId_of_none o2 _ ho]
      rfl

/-- C6 at the request that follows `twoSubmissions`: it carries `abc`, the token
of the first response, the second response having supplied the empty string. -/
theorem session_token_carried_witness :
    heldToken (twoSubmissions.map Prod.snd) = some (.str "abc") ∧
    ∃ r, (submit (afterSubmissions (initialState [] "") twoSubmissions) "more" hiThere).2 =
        some r ∧
      r.body = some "\x7b\"message\":\"more\",\"session_id\":\"abc\"\x7d" := by
  obtain ⟨⟨r, h1, _, _, h4, _, _⟩, _⟩ :=
    session_token_carried [] "" twoSubmissions "more" hiThere (by decide) (by decide)
      (by decide)
  exact ⟨rfl, r, h1, by rw [h4 "abc" rfl]; decide⟩

/-- C6 fails as stated: the second success response supplies the `session_id`
`""`, the most recent one supplied, yet the third request still carries `abc`.
And a response with status ok whose answer cannot be shown ends in the `catch`
block before its `session_id` `xyz` is stored, so the next request carries
none. -/
theorem third_request_keeps_old_token :
    specHeldToken (twoSubmissions.map Prod.snd) = some (.str "") ∧
    ((submit (afterSubmissions (initialState [] "") twoSubmissions) "more" hiThere).2.bind
      Request.body) = some "\x7b\"message\":\"more\",\"session_id\":\"abc\"\x7d" ∧
    ((submit (afterSubmissions (initialState [] "") twoSubmissions) "more" hiThere).2.bind
      Request.body) ≠ some "\x7b\"message\":\"more\",\"session_id\":\"\"\x7d" ∧
    specHeldToken [unshownAnswer] = some (.str "xyz") ∧
    (submit (initialState [] "") "Hello" unshownAnswer).1.chatHistory =
      [Element.mk ["message", "user"] "" (Bubble.mk ["bubble"] (BubbleContent.text "Hello")),
       Element.mk ["message", "system"] ""
        (Bubble.mk ["bubble"]
          (BubbleContent.text "Error: Could not connect to server."))] ∧
    ((submit (afterSubmissions (initialState [] "") [("Hello", unshownAnswer)]) "more"
      hiThere).2.bind Request.body) = some "\x7b\"message\":\"more\"\x7d" := by
  refine ⟨rfl, by decide, by decide, rfl, by decide, by decide⟩

end GstChat
